import Mathlib

/-!
# Verification of the Chertkovo anonymous-report relay bot

Shallow embedding of `telegram_bot_chertkovsky.py` (the `_filled` variant is
byte-for-byte identical in all functions modelled here, differing only in how
`BOT_TOKEN`/`CHANNEL_ID` are obtained).

Modelling conventions:
* Python `dict.get` of an optional field becomes `Option`.
* Python truthiness is modelled explicitly: for strings, `None` and `""` are
  falsy; for integers, `0` is falsy; for dicts, absent and empty are falsy,
  so an absent-or-empty `message`/`location` dict is modelled as `none`.
* Latitude/longitude are carried as the strings Python's f-string rendering
  would produce for them (`str(x)` applied to the raw value); the builder
  passes them through verbatim, which is what "unrounded" means here.
* Network calls are modelled by their observable inputs/outputs: the
  parameters a request would carry, the `HttpResponse` an oracle returns for
  a request, and the lists of publish calls, acknowledgment calls, log lines
  and sleeps an iteration performs.
-/

set_option autoImplicit false

namespace Chertkovo

/-- A non-empty Telegram `location` dict: its `latitude` and `longitude`
values as the strings Python's default formatting renders them to. -/
structure Location where
  latitude : String
  longitude : String
  deriving Repr, DecidableEq

/-- The fields of a Telegram `message` dict that the program reads.
`chatId` is `message.get("chat", {}).get("id")`: `none` covers both an absent
`chat` dict and a `chat` dict without an `id`. -/
structure Message where
  text : Option String
  caption : Option String
  location : Option Location
  chatId : Option Int
  deriving Repr, DecidableEq

/-- One element of the `result` array of `getUpdates`.  `message = none`
models `update.get("message", {})` being empty or absent (Python's
`if not message:`). -/
structure Update where
  updateId : Option Int
  message : Option Message
  deriving Repr, DecidableEq

/-- The JSON body of a `getUpdates` response: `updates.get("ok", False)` and
`updates.get("result", [])`. -/
structure UpdatesResponse where
  ok : Bool
  result : List Update
  deriving Repr, DecidableEq

/-- An HTTP response as the program observes it: `response.status_code` and
`response.text`. -/
structure HttpResponse where
  statusCode : Nat
  text : String
  deriving Repr, DecidableEq

/-- Python truthiness of an optional string (`None` and `""` are falsy). -/
def strTruthy : Option String → Bool
  | none => false
  | some s => s ≠ ""

/-- Python truthiness of an optional integer (`None` and `0` are falsy). -/
def intTruthy : Option Int → Bool
  | none => false
  | some n => n ≠ 0

/-- The query parameters `get_updates` puts into its `getUpdates` request:
`params = {"timeout": timeout, "allowed_updates": ["message"]}` and then
`if offset: params["offset"] = offset`.  `offset = none` models the field
being absent from the dict. -/
structure GetUpdatesParams where
  timeout : Int
  allowedUpdates : List String
  offset : Option Int
  deriving Repr, DecidableEq

/-- `get_updates`, lines 77-79: the request parameters as a function of the
`offset` argument (default `None`) and `timeout` argument (default 30). -/
def getUpdatesParams (offset : Option Int) (timeout : Int) : GetUpdatesParams :=
  { timeout := timeout
    allowedUpdates := ["message"]
    offset := if intTruthy offset then offset else none }

/-- `requests.Response.raise_for_status`: raises `HTTPError` exactly for
status codes in `[400, 600)`.  The error's message text is abstracted by
`httpErrorText`. -/
def httpErrorText (r : HttpResponse) : String :=
  toString r.statusCode ++ " Error"

/-- `raise_for_status` as an `Except`: `.error` is the raised exception. -/
def raise_for_status (r : HttpResponse) : Except String Unit :=
  if 400 ≤ r.statusCode ∧ r.statusCode < 600 then .error (httpErrorText r)
  else .ok ()

/-- Observable outcome of `send_message`: whether an exception escaped it,
and the lines it printed. -/
structure SendOutcome where
  raised : Bool
  logs : List String
  deriving Repr, DecidableEq

/-- `send_message`, lines 85-99, as a function of the response the
`sendMessage` POST returns: `response.raise_for_status()` inside
`try/except`, printing the exception and `response.text` on failure.  It
never lets the exception escape. -/
def send_message (r : HttpResponse) : SendOutcome :=
  match raise_for_status r with
  | .ok _ => { raised := false, logs := [] }
  | .error exc =>
      { raised := false
        logs := ["Не удалось отправить сообщение: " ++ exc ++ "\nОтвет: " ++ r.text] }

/-- `build_forward_text`, lines 102-131.
`text = message.get("text") or message.get("caption")`; a text/caption block
if that is truthy; a location block if `location` is truthy; the placeholder
if `parts` stayed empty; joined with `"\n".join(parts)`. -/
def build_forward_text (m : Message) : String :=
  let text : Option String := if strTruthy m.text then m.text else m.caption
  let parts₁ : List String :=
    if strTruthy text then ["<b>Сообщение:</b> " ++ text.getD ""] else []
  let parts₂ : List String :=
    match m.location with
    | some loc =>
        parts₁ ++ ["<b>Местоположение:</b> " ++ loc.latitude ++ ", " ++ loc.longitude]
    | none => parts₁
  let parts := if parts₂ = [] then ["(пустое сообщение)"] else parts₂
  String.intercalate "\n" parts

/-- Observable effects of processing one update (or a batch): the offset the
loop variable holds afterwards, the texts passed to `send_message` for the
channel, the chat ids sent the private confirmation, and the lines printed. -/
structure StepOut where
  offset : Option Int
  publishes : List String
  acks : List Int
  logs : List String
  deriving Repr, DecidableEq

/-- The body of `for update in updates.get("result", []):`, lines 166-186,
for a single `update`.  `pub` is the response oracle for the channel
`sendMessage` POST (the confirmation POST's response is ignored by the code,
so it needs no oracle).

* `message` empty/absent: `offset = update_id + 1 if update_id is not None
  else None`, then `continue`.
* otherwise: `build_forward_text`, `send_message`, confirmation POST iff
  `chat_id is not None`, then `if update_id is not None: offset = update_id + 1`. -/
def processUpdate (pub : String → HttpResponse) (offset : Option Int) (u : Update) :
    StepOut :=
  match u.message with
  | none =>
      { offset :=
          match u.updateId with
          | some i => some (i + 1)
          | none => none
        publishes := [], acks := [], logs := [] }
  | some m =>
      let txt := build_forward_text m
      let sent := send_message (pub txt)
      { offset :=
          match u.updateId with
          | some i => some (i + 1)
          | none => offset
        publishes := [txt]
        acks :=
          match m.chatId with
          | some c => [c]
          | none => []
        logs := sent.logs }

/-- The whole `for` loop over a batch, threading `offset` left to right and
concatenating the effects in order. -/
def processUpdates (pub : String → HttpResponse) (offset : Option Int) :
    List Update → StepOut
  | [] => { offset := offset, publishes := [], acks := [], logs := [] }
  | u :: us =>
      let s₁ := processUpdate pub offset u
      let s₂ := processUpdates pub s₁.offset us
      { offset := s₂.offset
        publishes := s₁.publishes ++ s₂.publishes
        acks := s₁.acks ++ s₂.acks
        logs := s₁.logs ++ s₂.logs }

/-- Observable effects of one iteration of the `while True:` loop: the new
offset, the calls made, the lines printed, and the `time.sleep` argument the
iteration ends with. -/
structure IterOut where
  offset : Option Int
  publishes : List String
  acks : List Int
  logs : List String
  sleep : Nat
  deriving Repr, DecidableEq

/-- One iteration of `main`'s loop, lines 154-188, as a function of the
outcome of `get_updates` (`.error` = the exception the `except` clause
catches; log payload texts abstracted to their fixed prefixes):

* exception: print, `time.sleep(5)`, `continue` — offset untouched;
* `ok` falsy: print, `time.sleep(5)`, `continue` — offset untouched;
* otherwise process the batch, then `time.sleep(1)`. -/
def loopIteration (pub : String → HttpResponse) (offset : Option Int)
    (fetch : Except String UpdatesResponse) : IterOut :=
  match fetch with
  | .error exc =>
      { offset := offset, publishes := [], acks := []
        logs := ["Ошибка при получении обновлений: " ++ exc ++ ". Перезапрос через 5 секунд."]
        sleep := 5 }
  | .ok r =>
      if r.ok then
        let s := processUpdates pub offset r.result
        { offset := s.offset, publishes := s.publishes, acks := s.acks
          logs := s.logs, sleep := 1 }
      else
        { offset := offset, publishes := [], acks := []
          logs := ["Telegram API вернул ошибку"]
          sleep := 5 }

/-- What the startup of `main` does before the loop. -/
inductive StartupResult where
  | fatal (msg : String)
  | entersLoop (initialOffset : Option Int)
  deriving Repr, DecidableEq

/-- The startup checks of `main`, lines 143-153:
`if not BOT_TOKEN or BOT_TOKEN == "YOUR_BOT_TOKEN_HERE": raise RuntimeError(...)`,
the same for `CHANNEL_ID`, then `offset: int | None = None` and the loop is
entered.  (`os.environ.get` yields strings, so both values are strings; an
empty string is the only falsy one.) -/
def mainStartup (botToken channelId : String) : StartupResult :=
  if botToken = "" ∨ botToken = "YOUR_BOT_TOKEN_HERE" then
    .fatal "Не указан BOT_TOKEN. Задайте переменную окружения BOT_TOKEN или пропишите её в коде."
  else if channelId = "" ∨ channelId = "YOUR_CHANNEL_ID_HERE" then
    .fatal "Не указан CHANNEL_ID. Задайте переменную окружения CHANNEL_ID или пропишите её в коде."
  else
    .entersLoop none

/-! ## Helper lemmas -/

theorem intercalate_one (s a : String) : String.intercalate s [a] = a := rfl

theorem intercalate_two (s a b : String) : String.intercalate s [a, b] = a ++ s ++ b := rfl

/-- The effects of processing one update do not depend on the responses the
channel `sendMessage` POST returns (only the printed log lines may). -/
theorem processUpdate_pub_irrelevant (pub₁ pub₂ : String → HttpResponse)
    (off : Option Int) (u : Update) :
    (processUpdate pub₁ off u).offset = (processUpdate pub₂ off u).offset ∧
    (processUpdate pub₁ off u).publishes = (processUpdate pub₂ off u).publishes ∧
    (processUpdate pub₁ off u).acks = (processUpdate pub₂ off u).acks := by
  obtain ⟨uid, msg⟩ := u
  cases msg <;> simp [processUpdate]

/-- Batch version of `processUpdate_pub_irrelevant`. -/
theorem processUpdates_pub_irrelevant (pub₁ pub₂ : String → HttpResponse)
    (us : List Update) : ∀ off : Option Int,
    (processUpdates pub₁ off us).offset = (processUpdates pub₂ off us).offset ∧
    (processUpdates pub₁ off us).publishes = (processUpdates pub₂ off us).publishes ∧
    (processUpdates pub₁ off us).acks = (processUpdates pub₂ off us).acks := by
  induction us with
  | nil => intro off; simp [processUpdates]
  | cons u us ih =>
      intro off
      obtain ⟨h₁, h₂, h₃⟩ := processUpdate_pub_irrelevant pub₁ pub₂ off u
      obtain ⟨g₁, g₂, g₃⟩ := ih (processUpdate pub₁ off u).offset
      simp only [processUpdates]
      rw [h₁] at g₁ g₂ g₃ ⊢
      exact ⟨g₁, by rw [h₂, g₂], by rw [h₃, g₃]⟩

/-- Each message-bearing update yields exactly one channel `sendMessage`
call; updates without a message yield none. -/
theorem processUpdates_publish_count (pub : String → HttpResponse)
    (us : List Update) : ∀ off : Option Int,
    (processUpdates pub off us).publishes.length =
      (us.filter (fun u => u.message.isSome)).length := by
  induction us with
  | nil => intro off; simp [processUpdates]
  | cons u us ih =>
      intro off
      obtain ⟨uid, msg⟩ := u
      cases msg <;>
        simp [processUpdates, processUpdate, List.filter, ih]

/-! ## Claim theorems -/

/-- Claim C9: `get_updates` with cursor `0` builds the same request
parameters as with no cursor at all (the `offset` key is omitted), and the
`offset` key is present exactly for a truthy (non-`None`, non-zero) cursor,
in which case it carries that cursor unchanged. -/
theorem getUpdates_zero_cursor_omitted (t : Int) (o : Option Int) :
    getUpdatesParams (some 0) t = getUpdatesParams none t ∧
    ((getUpdatesParams o t).offset ≠ none ↔ ∃ n : Int, o = some n ∧ n ≠ 0) ∧
    ((getUpdatesParams o t).offset ≠ none → (getUpdatesParams o t).offset = o) := by
  refine ⟨rfl, ?_, ?_⟩ <;> cases o with
  | none => simp [getUpdatesParams, intTruthy]
  | some n =>
      by_cases hn : n = 0 <;> simp [getUpdatesParams, intTruthy, hn]

/-- Witness for `getUpdates_zero_cursor_omitted` at `t = 30`, `o = some 0`. -/
theorem getUpdates_zero_cursor_omitted_witness :
    getUpdatesParams (some 0) 30 = getUpdatesParams none 30 :=
  (getUpdates_zero_cursor_omitted 30 (some 0)).1

/-- Claim C5: when `get_updates` ends in an exception, the loop iteration
catches it, performs no publish and no acknowledgment, sleeps the fixed 5
seconds, leaves the offset untouched, and the next `getUpdates` request is
built from exactly the same cursor. -/
theorem fetch_error_same_cursor (pub : String → HttpResponse) (off : Option Int)
    (exc : String) :
    loopIteration pub off (.error exc) =
      { offset := off, publishes := [], acks := []
        logs := ["Ошибка при получении обновлений: " ++ exc ++ ". Перезапрос через 5 секунд."]
        sleep := 5 } ∧
    getUpdatesParams (loopIteration pub off (.error exc)).offset 30 =
      getUpdatesParams off 30 :=
  ⟨rfl, rfl⟩

/-- Claim C6: when the fetch response has `ok = False`, the iteration makes
no publish call and no acknowledgment call, leaves the offset unchanged, and
sleeps the fixed 5-second delay before the next fetch. -/
theorem fetch_not_ok_no_effects (pub : String → HttpResponse) (off : Option Int)
    (us : List Update) :
    loopIteration pub off (.ok ⟨false, us⟩) =
      { offset := off, publishes := [], acks := []
        logs := ["Telegram API вернул ошибку"], sleep := 5 } := by
  simp [loopIteration]

/-- Claim C4: on a non-success response (status in `[400, 600)`),
`send_message` prints the error together with the raw response body and
returns normally; the loop's offset, publish calls and acknowledgment calls
are independent of whatever responses publishing gets (no halt, no retry, no
re-queue), and each message-bearing update receives exactly one — hence at
most one — publish attempt. -/
theorem publish_failure_logged_once (r : HttpResponse)
    (h : 400 ≤ r.statusCode ∧ r.statusCode < 600)
    (pub₁ pub₂ : String → HttpResponse) (off : Option Int) (us : List Update) :
    send_message r =
      { raised := false
        logs := ["Не удалось отправить сообщение: " ++ httpErrorText r ++
                  "\nОтвет: " ++ r.text] } ∧
    (processUpdates pub₁ off us).offset = (processUpdates pub₂ off us).offset ∧
    (processUpdates pub₁ off us).publishes = (processUpdates pub₂ off us).publishes ∧
    (processUpdates pub₁ off us).acks = (processUpdates pub₂ off us).acks ∧
    (processUpdates pub₁ off us).publishes.length =
      (us.filter (fun u => u.message.isSome)).length := by
  obtain ⟨h₁, h₂, h₃⟩ := processUpdates_pub_irrelevant pub₁ pub₂ us off
  refine ⟨?_, h₁, h₂, h₃, processUpdates_publish_count pub₁ us off⟩
  unfold send_message raise_for_status
  rw [if_pos h]

/-- Witness for `publish_failure_logged_once` at a concrete 404 response. -/
theorem publish_failure_logged_once_witness :
    send_message ⟨404, "oops"⟩ =
      { raised := false
        logs := ["Не удалось отправить сообщение: " ++ httpErrorText ⟨404, "oops"⟩ ++
                  "\nОтвет: " ++ "oops"] } :=
  (publish_failure_logged_once ⟨404, "oops"⟩ (by decide)
    (fun _ => ⟨200, ""⟩) (fun _ => ⟨200, ""⟩) none []).1

/-- Claim C1 counterexample: with the cursor at `13`, an update with no
`message` payload and no `update_id` does not leave the cursor unchanged —
the loop resets it to `None`. -/
theorem no_message_no_id_resets_cursor :
    (processUpdate (fun _ => ⟨200, ""⟩) (some 13) ⟨none, none⟩).offset = none ∧
    (processUpdate (fun _ => ⟨200, ""⟩) (some 13) ⟨none, none⟩).offset ≠ some 13 :=
  ⟨rfl, by decide⟩

/-- Claim C1 amended: for an update with no `message` payload the cursor is
advanced to `updateId + 1` when `updateId` is defined and reset to `None`
when it is absent; for a message-bearing update the cursor is advanced to
`updateId + 1` when `updateId` is defined and left unchanged when it is
absent. -/
theorem cursor_update_cases (pub : String → HttpResponse) (off : Option Int)
    (u : Update) (i : Int) :
    (u.message = none → u.updateId = some i →
      (processUpdate pub off u).offset = some (i + 1)) ∧
    (u.message = none → u.updateId = none →
      (processUpdate pub off u).offset = none) ∧
    (u.message.isSome = true → u.updateId = some i →
      (processUpdate pub off u).offset = some (i + 1)) ∧
    (u.message.isSome = true → u.updateId = none →
      (processUpdate pub off u).offset = off) := by
  obtain ⟨uid, msg⟩ := u
  cases msg <;> cases uid <;> simp_all [processUpdate]

/-- Witness for `cursor_update_cases`: a no-message update with id 9 moves
the cursor from 3 to 10. -/
theorem cursor_update_cases_witness :
    (processUpdate (fun _ => HttpResponse.mk 200 "") (some 3)
      ⟨some 9, none⟩).offset = some 10 :=
  (cursor_update_cases (fun _ => ⟨200, ""⟩) (some 3) ⟨some 9, none⟩ 9).1 rfl rfl

/-- Claim C2 counterexample: an event whose `text` is present but empty
(`text = ""`) still falls back to the caption — `build_forward_text` renders
the caption `"C"`, not the text-block of `""` — so the fallback is not
restricted to absent `text`. -/
theorem empty_text_falls_back_to_caption :
    (Message.mk (some "") (some "C") none none).text.isSome = true ∧
    build_forward_text ⟨some "", some "C", none, none⟩ = "<b>Сообщение:</b> C" ∧
    build_forward_text ⟨some "", some "C", none, none⟩ ≠ "<b>Сообщение:</b> " :=
  ⟨rfl, by decide, by decide⟩

/-- Claim C2 amended: `build_forward_text` prefers `text` whenever it is
present and non-empty, and falls back to `caption` when `text` is absent or
empty (Python falsiness); whenever the selected content is non-empty the
result begins with the bolded "Сообщение:" label followed by that content;
and an event with `caption = c` and no `text` yields exactly the same result
as one with `text = c` and no `caption`. -/
theorem build_text_prefers_nonempty_text (m : Message) (t c : String) :
    (m.text = some t → t ≠ "" →
      ∃ r, build_forward_text m = "<b>Сообщение:</b> " ++ t ++ r) ∧
    (strTruthy m.text = false → m.caption = some c → c ≠ "" →
      ∃ r, build_forward_text m = "<b>Сообщение:</b> " ++ c ++ r) ∧
    (∀ (loc : Option Location) (ch : Option Int),
      build_forward_text ⟨none, some c, loc, ch⟩ =
        build_forward_text ⟨some c, none, loc, ch⟩) := by
  obtain ⟨mt, mc, ml, mch⟩ := m
  refine ⟨?_, ?_, ?_⟩
  · rintro rfl ht
    cases ml with
    | none =>
        exact ⟨"", by simp [build_forward_text, strTruthy, ht, intercalate_one]⟩
    | some loc =>
        refine ⟨"\n" ++ ("<b>Местоположение:</b> " ++ loc.latitude ++ ", " ++
          loc.longitude), ?_⟩
        simp [build_forward_text, strTruthy, ht, intercalate_two,
          String.append_assoc]
  · intro hmt h₂ hc
    replace hmt : strTruthy mt = false := hmt
    replace h₂ : mc = some c := h₂
    subst h₂
    have hmt' : mt = none ∨ mt = some "" := by
      cases mt with
      | none => exact Or.inl rfl
      | some s =>
          refine Or.inr ?_
          simp only [strTruthy] at hmt
          simpa using hmt
    rcases hmt' with rfl | rfl <;> cases ml with
    | none =>
        exact ⟨"", by simp [build_forward_text, strTruthy, hc, intercalate_one]⟩
    | some loc =>
        refine ⟨"\n" ++ ("<b>Местоположение:</b> " ++ loc.latitude ++ ", " ++
          loc.longitude), ?_⟩
        simp [build_forward_text, strTruthy, hc, intercalate_two,
          String.append_assoc]
  · intro loc ch
    by_cases hc : c = "" <;> cases loc <;>
      simp [build_forward_text, strTruthy, hc]

/-- Witness for `build_text_prefers_nonempty_text`: the event with only
`text = "T"` renders the text-block for `"T"`. -/
theorem build_text_prefers_nonempty_text_witness :
    ∃ r, build_forward_text ⟨some "T", none, none, none⟩ =
      "<b>Сообщение:</b> " ++ "T" ++ r :=
  (build_text_prefers_nonempty_text ⟨some "T", none, none, none⟩ "T" "C").1
    rfl (by decide)

/-- Claim C3: an event whose message has no `text`, no `caption` and no
`location` is rendered as exactly the placeholder `"(пустое сообщение)"`,
which is not the empty string, and processing such an update publishes that
placeholder (the event is not dropped). -/
theorem empty_message_placeholder (m : Message) (pub : String → HttpResponse)
    (off uid : Option Int)
    (h₁ : m.text = none) (h₂ : m.caption = none) (h₃ : m.location = none) :
    build_forward_text m = "(пустое сообщение)" ∧
    build_forward_text m ≠ "" ∧
    (processUpdate pub off ⟨uid, some m⟩).publishes = ["(пустое сообщение)"] := by
  obtain ⟨mt, mc, ml, mch⟩ := m
  replace h₁ : mt = none := h₁
  replace h₂ : mc = none := h₂
  replace h₃ : ml = none := h₃
  subst h₁; subst h₂; subst h₃
  have hb : build_forward_text ⟨none, none, none, mch⟩ = "(пустое сообщение)" := rfl
  refine ⟨hb, ?_, ?_⟩
  · rw [hb]; decide
  · simp only [processUpdate]
    rw [hb]

/-- Witness for `empty_message_placeholder` at the all-absent message. -/
theorem empty_message_placeholder_witness :
    build_forward_text ⟨none, none, none, none⟩ = "(пустое сообщение)" :=
  (empty_message_placeholder ⟨none, none, none, none⟩ (fun _ => ⟨200, ""⟩)
    none none rfl rfl rfl).1

/-- Merging the newline separator with the location label, for normalising
concatenations of `build_forward_text` outputs. -/
theorem append_newline_loc (x : String) :
    ("\n" : String) ++ ("<b>Местоположение:</b> " ++ x) =
      "\n<b>Местоположение:</b> " ++ x :=
  ((String.append_assoc "\n" "<b>Местоположение:</b> " x).symm).trans
    (congrArg (· ++ x) (by decide))

/-- Claim C8 counterexample: with `text` present but empty and a location
present, the output is the location-block alone — not the text-block
followed by a newline and the location-block. -/
theorem empty_text_with_location_drops_text_block :
    build_forward_text ⟨some "", none, some ⟨"1.0", "2.0"⟩, none⟩ =
      "<b>Местоположение:</b> 1.0, 2.0" ∧
    build_forward_text ⟨some "", none, some ⟨"1.0", "2.0"⟩, none⟩ ≠
      "<b>Сообщение:</b> " ++ "\n" ++ "<b>Местоположение:</b> 1.0, 2.0" :=
  ⟨by decide, by decide⟩

/-- Claim C8 amended: for an event with a non-empty `text` and a `location`,
`build_forward_text` returns the text-block, then a single newline, then the
location-block, in that fixed order, with the rendered latitude and
longitude strings passed through verbatim (unrounded). -/
theorem text_then_location_order (m : Message) (t : String) (loc : Location)
    (ht : m.text = some t) (hne : t ≠ "") (hl : m.location = some loc) :
    build_forward_text m =
      "<b>Сообщение:</b> " ++ t ++ "\n" ++ "<b>Местоположение:</b> " ++
        loc.latitude ++ ", " ++ loc.longitude := by
  obtain ⟨mt, mc, ml, mch⟩ := m
  replace ht : mt = some t := ht
  replace hl : ml = some loc := hl
  subst ht; subst hl
  simp [build_forward_text, strTruthy, hne, intercalate_two, String.append_assoc,
    append_newline_loc]

/-- Witness for `text_then_location_order` at `text = "T"`,
`location = (1.0, 2.0)`. -/
theorem text_then_location_order_witness :
    build_forward_text ⟨some "T", none, some ⟨"1.0", "2.0"⟩, none⟩ =
      "<b>Сообщение:</b> " ++ "T" ++ "\n" ++ "<b>Местоположение:</b> " ++
        "1.0" ++ ", " ++ "2.0" :=
  text_then_location_order ⟨some "T", none, some ⟨"1.0", "2.0"⟩, none⟩ "T"
    ⟨"1.0", "2.0"⟩ rfl (by decide) rfl

/-- Claim C7: startup aborts with a fatal, non-empty operator-facing message
exactly when `BOT_TOKEN` or `CHANNEL_ID` is empty or equals its placeholder;
otherwise the relay loop is entered (with initial offset `None`) without any
further validation. -/
theorem startup_validation (bt ch : String) :
    ((∃ e, mainStartup bt ch = .fatal e ∧ e ≠ "") ↔
      (bt = "" ∨ bt = "YOUR_BOT_TOKEN_HERE" ∨ ch = "" ∨ ch = "YOUR_CHANNEL_ID_HERE")) ∧
    (¬(bt = "" ∨ bt = "YOUR_BOT_TOKEN_HERE" ∨ ch = "" ∨ ch = "YOUR_CHANNEL_ID_HERE") →
      mainStartup bt ch = .entersLoop none) := by
  by_cases h₁ : bt = "" ∨ bt = "YOUR_BOT_TOKEN_HERE"
  · rw [mainStartup, if_pos h₁]
    refine ⟨⟨fun _ => ?_, fun _ => ⟨_, rfl, by decide⟩⟩, fun hn => absurd (by tauto) hn⟩
    rcases h₁ with h | h
    · exact Or.inl h
    · exact Or.inr (Or.inl h)
  · by_cases h₂ : ch = "" ∨ ch = "YOUR_CHANNEL_ID_HERE"
    · rw [mainStartup, if_neg h₁, if_pos h₂]
      refine ⟨⟨fun _ => ?_, fun _ => ⟨_, rfl, by decide⟩⟩, fun hn => absurd (by tauto) hn⟩
      rcases h₂ with h | h
      · exact Or.inr (Or.inr (Or.inl h))
      · exact Or.inr (Or.inr (Or.inr h))
    · rw [mainStartup, if_neg h₁, if_neg h₂]
      refine ⟨⟨?_, fun h => absurd h (by tauto)⟩, fun _ => rfl⟩
      rintro ⟨e, he, -⟩
      exact absurd he (by simp)

/-- Witness for `startup_validation`: an empty token is fatal. -/
theorem startup_validation_witness :
    ∃ e, mainStartup "" "8142424816" = .fatal e ∧ e ≠ "" :=
  (startup_validation "" "8142424816").1.mpr (Or.inl rfl)

/-- Claim C10: a message-bearing update whose message has no chat id sends
no acknowledgment at all, while the publish call and the cursor advance to
`updateId + 1` happen exactly as for the same message with a chat id. -/
theorem missing_chat_id_skips_ack_only (pub : String → HttpResponse)
    (off : Option Int) (i cid : Int) (m : Message) (h : m.chatId = none) :
    (processUpdate pub off ⟨some i, some m⟩).acks = [] ∧
    (processUpdate pub off ⟨some i, some m⟩).publishes = [build_forward_text m] ∧
    (processUpdate pub off ⟨some i, some m⟩).offset = some (i + 1) ∧
    (processUpdate pub off ⟨some i, some { m with chatId := some cid }⟩).publishes =
      [build_forward_text m] ∧
    (processUpdate pub off ⟨some i, some { m with chatId := some cid }⟩).offset =
      some (i + 1) ∧
    (processUpdate pub off ⟨some i, some { m with chatId := some cid }⟩).acks =
      [cid] := by
  obtain ⟨mt, mc, ml, mch⟩ := m
  replace h : mch = none := h
  subst h
  refine ⟨rfl, rfl, rfl, ?_, rfl, rfl⟩
  have hb : build_forward_text ⟨mt, mc, ml, some cid⟩ =
      build_forward_text ⟨mt, mc, ml, none⟩ := rfl
  simp only [processUpdate, hb]

/-- Witness for `missing_chat_id_skips_ack_only` at a concrete update. -/
theorem missing_chat_id_skips_ack_only_witness :
    (processUpdate (fun _ => HttpResponse.mk 200 "") none
      ⟨some 5, some ⟨some "T", none, none, none⟩⟩).acks = [] :=
  (missing_chat_id_skips_ack_only (fun _ => ⟨200, ""⟩) none 5 999
    ⟨some "T", none, none, none⟩ rfl).1

end Chertkovo
